import Mathlib

/-!
Shallow embedding of the `signTransaction` signing pipelines of the agw-sdk
repository (`src/unnamed/part_000`): a configurable pipeline (lines 29-137)
and a restricted, test-network-only pipeline (lines 165-249).

External capabilities (the live chain-id read, the hook-registry read, the
typed-data signer, the chain's domain-derivation function and transaction
serializer) are modelled as explicit inputs, and every external call made by a
pipeline run is recorded in an event trace.
-/

namespace AGW

/-- Byte strings (viem `Hex` values such as signatures and hook payloads),
as lists of byte values. The empty byte string models `'0x'`. -/
abbrev Bytes := List Nat

/-- A 20-byte account address, as a number. -/
abbrev Addr := Nat

/-- A JavaScript numeric transaction field: either still a hex string
(as supplied by the caller) or already a bigint. -/
inductive JNum where
  | hex (s : String)
  | big (n : Nat)
deriving DecidableEq

/-- The transaction request fields (`SignEip712TransactionParameters` minus
`account` and `chain`, which are destructured off). `none` models an absent
property. -/
structure Tx where
  toAddr : Option Addr
  data : Option Bytes
  value : Option JNum
  nonce : Option JNum
  gas : Option JNum
  maxFeePerGas : Option JNum
  maxPriorityFeePerGas : Option JNum
  gasPerPubdata : Option JNum
  chainId : Option JNum
  typ : Option String
  customSignature : Option Bytes
deriving DecidableEq

/-- Value of a hex digit character, as in JavaScript `BigInt` parsing. -/
def hexDigitVal (c : Char) : Nat :=
  if '0' ≤ c ∧ c ≤ '9' then c.toNat - 48
  else if 'a' ≤ c ∧ c ≤ 'f' then c.toNat - 87
  else if 'A' ≤ c ∧ c ≤ 'F' then c.toNat - 55
  else 0

/-- `BigInt("0x…")`: parse a 0x-prefixed hex string to a number. -/
def hexToNat (s : String) : Nat :=
  ((s.drop 2).toList).foldl (fun a c => 16 * a + hexDigitVal c) 0

/-- Modelled from the spec: `transformHexValues` is imported from
`src/utils.ts`, which is not among the available sources. The spec says the
numeric fields are "normalized once (numeric fields coerced to a fixed-width
integer type)": a hex-string value becomes an integer, anything else is left
untouched. -/
def transformJNum : Option JNum → Option JNum
  | some (JNum.hex s) => some (JNum.big (hexToNat s))
  | v => v

/-- `transformHexValues(transaction, ['value','nonce','maxFeePerGas',
'maxPriorityFeePerGas','gas','value','chainId','gasPerPubdata'])`
(configurable pipeline, lines 48-57): normalize the listed numeric fields.
Listing `value` twice is harmless, since the coercion is idempotent. -/
def transformHexValues (t : Tx) : Tx :=
  { t with
    value := transformJNum t.value
    nonce := transformJNum t.nonce
    maxFeePerGas := transformJNum t.maxFeePerGas
    maxPriorityFeePerGas := transformJNum t.maxPriorityFeePerGas
    gas := transformJNum t.gas
    chainId := transformJNum t.chainId
    gasPerPubdata := transformJNum t.gasPerPubdata }

/-- Restricted pipeline, lines 183-185:
`transaction.value = transaction.value ? BigInt(transaction.value) : 0n`.
An absent value becomes `0n` (and `0n`, being falsy, stays `0n`); a hex
string (always truthy) is parsed. -/
def normalizeValueRestricted : Option JNum → Option JNum
  | some (JNum.hex s) => some (JNum.big (hexToNat s))
  | some (JNum.big n) => some (JNum.big n)
  | none => some (JNum.big 0)

/-- `w`-byte big-endian encoding of `n`. -/
def beBytes (w n : Nat) : Bytes :=
  (List.range w).map (fun i => n / 256 ^ (w - 1 - i) % 256)

/-- One 32-byte ABI word. -/
def word32 (n : Nat) : Bytes := beBytes 32 n

/-- Right-pad a byte string with zeros to a multiple of 32 bytes. -/
def padRight32 (b : Bytes) : Bytes :=
  b ++ List.replicate ((32 - b.length % 32) % 32) 0

/-- ABI encoding of one dynamic `bytes` value: a 32-byte length word followed
by the zero-padded contents. -/
def encDynBytes (b : Bytes) : Bytes := word32 b.length ++ padRight32 b

/-- ABI encoding of a dynamic `bytes[]` value: a length word, then one offset
word per element (relative to the start of the element area), then the
elements, each encoded as dynamic `bytes`. -/
def encBytesArray (bs : List Bytes) : Bytes :=
  let encs := bs.map encDynBytes
  let offsets := (List.range bs.length).map
    (fun i => 32 * bs.length + ((encs.take i).map List.length).sum)
  word32 bs.length ++ (offsets.map word32).flatten ++ encs.flatten

/-- Embedding of the viem dependency call
`encodeAbiParameters(parseAbiParameters(['bytes', 'address', 'bytes[]']),
[rawSignature, validator, hookData])` (lines 121-124 and 233-236), following
the standard ABI head/tail encoding: a three-word head holding the offset of
the first dynamic value, the address padded to a word, and the offset of the
second dynamic value, followed by the two dynamic tails in order. -/
def encodeAbiTriple (sig : Bytes) (validator : Addr) (hookData : List Bytes) : Bytes :=
  let e1 := encDynBytes sig
  word32 96 ++ word32 validator ++ word32 (96 + e1.length) ++ e1 ++ encBytesArray hookData

/-- `validationHookData[hook] ?? '0x'` (line 117): look a hook address up in
the caller-supplied payload map; a miss yields the empty byte string. -/
def hookLookup (m : List (Addr × Bytes)) (h : Addr) : Bytes :=
  ((m.find? (fun p => p.1 == h)).map Prod.snd).getD []

/-- The loop of lines 116-118: one payload per enabled hook, in the order the
registry returned them. -/
def resolveHookData (hooks : List Addr) (m : List (Addr × Bytes)) : List Bytes :=
  hooks.map (hookLookup m)

/-- The opaque typed-data object produced by the chain's
`custom.getEip712Domain` capability and consumed by `signTypedData`. -/
structure TypedData where
  tag : Nat
deriving DecidableEq

/-- The object passed to `chain.custom.getEip712Domain` (lines 88-93):
`{...transaction, chainId, from: fromAccount.address, type: 'eip712'}` -
the transaction's fields, with the chain id, from address and type keys
written after the spread, hence always taking these values. -/
structure DomainInput where
  toAddr : Option Addr
  data : Option Bytes
  value : Option JNum
  nonce : Option JNum
  gas : Option JNum
  maxFeePerGas : Option JNum
  maxPriorityFeePerGas : Option JNum
  gasPerPubdata : Option JNum
  customSignature : Option Bytes
  chainId : Nat
  fromAddr : Addr
  typ : String
deriving DecidableEq

/-- The first argument of `chain.serializers.transaction` (lines 128-134):
`{chainId, ...transaction, from: …, customSignature: …, type: 'eip712'}` -
the live chain id written before the spread (so the transaction's own
`chainId` property, when present, overrides it), and from, customSignature
and type written after the spread. -/
structure SerInput where
  toAddr : Option Addr
  data : Option Bytes
  value : Option JNum
  nonce : Option JNum
  gas : Option JNum
  maxFeePerGas : Option JNum
  maxPriorityFeePerGas : Option JNum
  gasPerPubdata : Option JNum
  chainId : JNum
  fromAddr : Addr
  customSignature : Bytes
  typ : String
deriving DecidableEq

/-- The second argument of `chain.serializers.transaction`. -/
structure RSV where
  r : String
  s : String
  v : Nat
deriving DecidableEq

/-- `{ r: '0x0', s: '0x0', v: 0n }` (lines 135 and 247). -/
def rsv0 : RSV := { r := "0x0", s := "0x0", v := 0 }

/-- One external call made by a pipeline run, with its argument. -/
inductive Event where
  | getChainIdCall
  | deriveDomainCall (d : DomainInput)
  | signCall (td : TypedData)
  | listHooksCall (acct : Option Addr) (onlyActive : Bool)
  | serializeCall (s : SerInput) (rsv : RSV)
deriving DecidableEq

/-- The errors the pipelines raise, one per `throw` site. -/
inductive SignError where
  | accountNotFound
  | invalidEip712Request
  | invalidChain
  | missingGetEip712Domain
  | missingSerializer
  | chainMismatch
deriving DecidableEq

/-- A chain binding: its id and its two optional capabilities
(`custom.getEip712Domain` and `serializers.transaction`). -/
structure Chain where
  id : Nat
  getEip712Domain : Option (DomainInput → TypedData)
  serializeTx : Option (SerInput → RSV → Bytes)

/-- The external world of one call: the value the live `getChainId` read
returns, the hook list the `listHooks` contract read returns, and the
signer's `signTypedData` capability. -/
structure Env where
  liveChainId : Nat
  enabledHooks : List Addr
  signTypedData : TypedData → Bytes

/-- The smart-account client: its (possibly absent at runtime) account
address and its configured chain. -/
structure ClientS where
  account : Option Addr
  chain : Option Chain

/-- The call arguments: optional account and chain overrides plus the
transaction request fields. -/
structure Args where
  account : Option Addr
  chain : Option Chain
  tx : Tx

/-- Modelled from the spec: `VALID_CHAINS` is defined in `src/utils.ts`,
which is not among the available sources. The spec's scenario names chain id
2741 as supported, and the restricted pipeline's single test network has id
11124 (`abstractTestnet.id`); the allow-list holds these two ids. -/
def VALID_CHAINS : List Nat := [2741, 11124]

/-- `const ALLOWED_CHAINS: number[] = [abstractTestnet.id]` (line 163);
`abstractTestnet.id` is 11124. -/
def ALLOWED_CHAINS : List Nat := [11124]

/-- Modelled from the spec: `assertEip712Request` comes from `src/eip712.ts`,
which is not among the available sources. Per the spec's pipeline, the
request must carry the fixed eip712 transaction-type discriminator (which
both pipelines set unconditionally just before the assertion). -/
def assertEip712RequestOk (t : Tx) : Bool := t.typ == some "eip712"

/-- `const { account: account_ = client.account, … } = args` (line 42). -/
def resolveAccount (client : ClientS) (args : Args) : Option Addr :=
  match args.account with
  | some a => some a
  | none => client.account

/-- `const { …, chain = client.chain, … } = args` (line 43). -/
def resolveChain (client : ClientS) (args : Args) : Option Chain :=
  match args.chain with
  | some c => some c
  | none => client.chain

/-- Entry normalization of the configurable pipeline (lines 47-57): force the
type discriminator to eip712, then normalize the numeric fields. -/
def normalizeTx (args : Args) : Tx :=
  transformHexValues { args.tx with typ := some "eip712" }

/-- Entry normalization of the restricted pipeline (lines 182-185): force the
type discriminator, then normalize only the value field. -/
def normalizeTxRestricted (args : Args) : Tx :=
  let t := { args.tx with typ := some "eip712" }
  { t with value := normalizeValueRestricted t.value }

/-- Build the argument of `getEip712Domain` from the normalized transaction,
the live chain id and the effective from address. -/
def mkDomainInput (t : Tx) (chainId : Nat) (fromAddr : Addr) : DomainInput :=
  { toAddr := t.toAddr, data := t.data, value := t.value, nonce := t.nonce,
    gas := t.gas, maxFeePerGas := t.maxFeePerGas,
    maxPriorityFeePerGas := t.maxPriorityFeePerGas,
    gasPerPubdata := t.gasPerPubdata, customSignature := t.customSignature,
    chainId := chainId, fromAddr := fromAddr, typ := "eip712" }

/-- Build the serializer's first argument: the live chain id is spread first,
so the transaction's own `chainId` property, when present, wins; from,
customSignature and type are written after the spread and always win. -/
def mkSerInput (liveChainId : Nat) (t : Tx) (fromAddr : Addr) (sig : Bytes) : SerInput :=
  { toAddr := t.toAddr, data := t.data, value := t.value, nonce := t.nonce,
    gas := t.gas, maxFeePerGas := t.maxFeePerGas,
    maxPriorityFeePerGas := t.maxPriorityFeePerGas,
    gasPerPubdata := t.gasPerPubdata,
    chainId := t.chainId.getD (JNum.big liveChainId),
    fromAddr := fromAddr, customSignature := sig, typ := "eip712" }

/-- The configurable pipeline, `signTransaction` of lines 29-137. Returns the
result (serialized bytes or the first error) paired with the trace of
external calls made, in order. -/
def signTransaction (client : ClientS) (signerAddr : Addr) (args : Args)
    (validator : Addr) (useSignerAddress : Bool)
    (validationHookData : List (Addr × Bytes)) (env : Env) :
    Except SignError Bytes × List Event :=
  let t := normalizeTx args
  match resolveAccount client args with
  | none => (Except.error SignError.accountNotFound, [])
  | some smartAccount =>
    let fromAddr := if useSignerAddress then signerAddr else smartAccount
    if assertEip712RequestOk t = false then
      (Except.error SignError.invalidEip712Request, [])
    else match resolveChain client args with
    | none => (Except.error SignError.invalidChain, [])
    | some c =>
      if VALID_CHAINS.contains c.id = false then
        (Except.error SignError.invalidChain, [])
      else match c.getEip712Domain with
      | none => (Except.error SignError.missingGetEip712Domain, [])
      | some deriveDomain =>
        match c.serializeTx with
        | none => (Except.error SignError.missingSerializer, [])
        | some serialize =>
          let chainId := env.liveChainId
          if chainId ≠ c.id then
            (Except.error SignError.chainMismatch, [Event.getChainIdCall])
          else
            let d := mkDomainInput t chainId fromAddr
            let td := deriveDomain d
            let rawSignature := env.signTypedData td
            if useSignerAddress then
              let s := mkSerInput chainId t fromAddr rawSignature
              (Except.ok (serialize s rsv0),
               [Event.getChainIdCall, Event.deriveDomainCall d,
                Event.signCall td, Event.serializeCall s rsv0])
            else
              let hookData := resolveHookData env.enabledHooks validationHookData
              let signature := encodeAbiTriple rawSignature validator hookData
              let s := mkSerInput chainId t fromAddr signature
              (Except.ok (serialize s rsv0),
               [Event.getChainIdCall, Event.deriveDomainCall d,
                Event.signCall td, Event.listHooksCall client.account true,
                Event.serializeCall s rsv0])

/-- The restricted pipeline, `signTransaction` of lines 165-249: allow-list
is `ALLOWED_CHAINS`, only the value field is normalized, and the delegated
branch encodes an empty hook payload sequence without any registry read. -/
def signTransactionRestricted (client : ClientS) (signerAddr : Addr)
    (args : Args) (validator : Addr) (useSignerAddress : Bool) (env : Env) :
    Except SignError Bytes × List Event :=
  let t := normalizeTxRestricted args
  match resolveAccount client args with
  | none => (Except.error SignError.accountNotFound, [])
  | some smartAccount =>
    let fromAddr := if useSignerAddress then signerAddr else smartAccount
    if assertEip712RequestOk t = false then
      (Except.error SignError.invalidEip712Request, [])
    else match resolveChain client args with
    | none => (Except.error SignError.invalidChain, [])
    | some c =>
      if ALLOWED_CHAINS.contains c.id = false then
        (Except.error SignError.invalidChain, [])
      else match c.getEip712Domain with
      | none => (Except.error SignError.missingGetEip712Domain, [])
      | some deriveDomain =>
        match c.serializeTx with
        | none => (Except.error SignError.missingSerializer, [])
        | some serialize =>
          let chainId := env.liveChainId
          if chainId ≠ c.id then
            (Except.error SignError.chainMismatch, [Event.getChainIdCall])
          else
            let d := mkDomainInput t chainId fromAddr
            let td := deriveDomain d
            let rawSignature := env.signTypedData td
            if useSignerAddress then
              let s := mkSerInput chainId t fromAddr rawSignature
              (Except.ok (serialize s rsv0),
               [Event.getChainIdCall, Event.deriveDomainCall d,
                Event.signCall td, Event.serializeCall s rsv0])
            else
              let signature := encodeAbiTriple rawSignature validator []
              let s := mkSerInput chainId t fromAddr signature
              (Except.ok (serialize s rsv0),
               [Event.getChainIdCall, Event.deriveDomainCall d,
                Event.signCall td, Event.serializeCall s rsv0])

/-! Concrete fixtures used to exercise the pipelines. -/

/-- A concrete domain-derivation capability. -/
def ddC (d : DomainInput) : TypedData := { tag := d.chainId + d.fromAddr }

/-- A concrete transaction serializer. -/
def serC (s : SerInput) (_ : RSV) : Bytes := s.customSignature

/-- A concrete supported chain binding with both capabilities present. -/
def chain0 : Chain :=
  { id := 2741, getEip712Domain := some ddC, serializeTx := some serC }

/-- The same binding on the restricted pipeline's test network. -/
def chainT : Chain := { chain0 with id := 11124 }

/-- A supported chain binding lacking both capabilities. -/
def chainNoCaps : Chain :=
  { id := 2741, getEip712Domain := none, serializeTx := none }

/-- A supported chain binding with the domain function but no serializer. -/
def chainNoSer : Chain := { chain0 with serializeTx := none }

/-- A client configured with account address 7 on `chain0`. -/
def client0 : ClientS := { account := some 7, chain := some chain0 }

/-- A client on the capability-less chain. -/
def clientNoCaps : ClientS := { account := some 7, chain := some chainNoCaps }

/-- A client on the serializer-less chain. -/
def clientNoSer : ClientS := { account := some 7, chain := some chainNoSer }

/-- The same client on the test network. -/
def clientT : ClientS := { account := some 7, chain := some chainT }

/-- A concrete transaction request. -/
def tx0 : Tx :=
  { toAddr := some 9, data := some [1, 2], value := some (JNum.hex "0x5"),
    nonce := none, gas := none, maxFeePerGas := none,
    maxPriorityFeePerGas := none, gasPerPubdata := none, chainId := none,
    typ := none, customSignature := none }

/-- A call taking account and chain from the client. -/
def args0 : Args := { account := none, chain := none, tx := tx0 }

/-- A request that carries its own `chainId` property. -/
def argsOwnChainId : Args :=
  { account := none, chain := none, tx := { tx0 with chainId := some (JNum.big 3) } }

/-- A request that carries its own `type` property. -/
def argsOwnType : Args :=
  { account := none, chain := none, tx := { tx0 with typ := some "eip1559" } }

/-- A live environment on chain 2741 with two enabled hooks. -/
def env0 : Env :=
  { liveChainId := 2741, enabledHooks := [161, 162],
    signTypedData := fun td => List.replicate 65 (td.tag % 256) }

/-- A live environment on the test network with no enabled hooks. -/
def envT : Env :=
  { liveChainId := 11124, enabledHooks := [],
    signTypedData := fun td => List.replicate 65 (td.tag % 256) }

/-- The arguments of the domain-derivation calls recorded in a trace. -/
def domainCalls (evs : List Event) : List DomainInput :=
  evs.filterMap (fun e => match e with
    | Event.deriveDomainCall d => some d
    | _ => none)

/-- The arguments of the signer calls recorded in a trace. -/
def signCalls (evs : List Event) : List TypedData :=
  evs.filterMap (fun e => match e with
    | Event.signCall td => some td
    | _ => none)

/-- The hook-registry reads recorded in a trace. -/
def listHooksReads (evs : List Event) : List (Option Addr × Bool) :=
  evs.filterMap (fun e => match e with
    | Event.listHooksCall a b => some (a, b)
    | _ => none)

/-- The arguments of the serializer calls recorded in a trace. -/
def serializerCalls (evs : List Event) : List (SerInput × RSV) :=
  evs.filterMap (fun e => match e with
    | Event.serializeCall s r => some (s, r)
    | _ => none)

/-! Helper lemmas characterizing the pipelines' paths. -/

/-- Normalization never touches the forced type discriminator. -/
theorem normalizeTx_typ (args : Args) : (normalizeTx args).typ = some "eip712" := rfl

/-- The eip712-request assertion always passes after entry normalization. -/
theorem assertOk_normalizeTx (args : Args) :
    assertEip712RequestOk (normalizeTx args) = true := rfl

/-- The eip712-request assertion also passes after restricted normalization. -/
theorem assertOk_normalizeTxRestricted (args : Args) :
    assertEip712RequestOk (normalizeTxRestricted args) = true := rfl

/-- The configurable pipeline on the direct (owner) path, spelled out: all
validations pass, the live chain id matches, and the caller signs as itself. -/
theorem signTransaction_direct_eq
    (client : ClientS) (signerAddr : Addr) (args : Args) (validator : Addr)
    (m : List (Addr × Bytes)) (env : Env)
    (acct : Addr) (c : Chain) (dd : DomainInput → TypedData)
    (ser : SerInput → RSV → Bytes)
    (hA : resolveAccount client args = some acct)
    (hC : resolveChain client args = some c)
    (hV : VALID_CHAINS.contains c.id = true)
    (hD : c.getEip712Domain = some dd)
    (hS : c.serializeTx = some ser)
    (hM : env.liveChainId = c.id) :
    signTransaction client signerAddr args validator true m env =
      (let t := normalizeTx args
       let d := mkDomainInput t env.liveChainId signerAddr
       let s := mkSerInput env.liveChainId t signerAddr (env.signTypedData (dd d))
       (Except.ok (ser s rsv0),
        [Event.getChainIdCall, Event.deriveDomainCall d,
         Event.signCall (dd d), Event.serializeCall s rsv0])) := by
  simp only [signTransaction, hA, hC, hD, hS, hV, hM,
    assertOk_normalizeTx, Bool.true_eq_false, if_false, if_true, ne_eq,
    not_true_eq_false, ite_true, ite_false]

/-- The configurable pipeline on the delegated path, spelled out: all
validations pass, the live chain id matches, and the composed signature
embeds the resolved hook payload sequence. -/
theorem signTransaction_delegated_eq
    (client : ClientS) (signerAddr : Addr) (args : Args) (validator : Addr)
    (m : List (Addr × Bytes)) (env : Env)
    (acct : Addr) (c : Chain) (dd : DomainInput → TypedData)
    (ser : SerInput → RSV → Bytes)
    (hA : resolveAccount client args = some acct)
    (hC : resolveChain client args = some c)
    (hV : VALID_CHAINS.contains c.id = true)
    (hD : c.getEip712Domain = some dd)
    (hS : c.serializeTx = some ser)
    (hM : env.liveChainId = c.id) :
    signTransaction client signerAddr args validator false m env =
      (let t := normalizeTx args
       let d := mkDomainInput t env.liveChainId acct
       let sig := encodeAbiTriple (env.signTypedData (dd d)) validator
         (resolveHookData env.enabledHooks m)
       let s := mkSerInput env.liveChainId t acct sig
       (Except.ok (ser s rsv0),
        [Event.getChainIdCall, Event.deriveDomainCall d,
         Event.signCall (dd d), Event.listHooksCall client.account true,
         Event.serializeCall s rsv0])) := by
  simp only [signTransaction, hA, hC, hD, hS, hV, hM,
    assertOk_normalizeTx, Bool.true_eq_false, Bool.false_eq_true, if_false,
    if_true, ne_eq, not_true_eq_false, ite_true, ite_false]

/-- The restricted pipeline on the delegated path, spelled out. -/
theorem signTransactionRestricted_delegated_eq
    (client : ClientS) (signerAddr : Addr) (args : Args) (validator : Addr)
    (env : Env)
    (acct : Addr) (c : Chain) (dd : DomainInput → TypedData)
    (ser : SerInput → RSV → Bytes)
    (hA : resolveAccount client args = some acct)
    (hC : resolveChain client args = some c)
    (hV : ALLOWED_CHAINS.contains c.id = true)
    (hD : c.getEip712Domain = some dd)
    (hS : c.serializeTx = some ser)
    (hM : env.liveChainId = c.id) :
    signTransactionRestricted client signerAddr args validator false env =
      (let t := normalizeTxRestricted args
       let d := mkDomainInput t env.liveChainId acct
       let sig := encodeAbiTriple (env.signTypedData (dd d)) validator []
       let s := mkSerInput env.liveChainId t acct sig
       (Except.ok (ser s rsv0),
        [Event.getChainIdCall, Event.deriveDomainCall d,
         Event.signCall (dd d), Event.serializeCall s rsv0])) := by
  simp only [signTransactionRestricted, hA, hC, hD, hS, hV, hM,
    assertOk_normalizeTxRestricted, Bool.true_eq_false, Bool.false_eq_true,
    if_false, if_true, ne_eq, not_true_eq_false, ite_true, ite_false]

/-! Claim theorems. -/

/-- C1: for every call with `useSignerAddress = true` (DirectMode) the
signature handed to the transaction serializer is the raw signature the
signer returned, unchanged; with `useSignerAddress = false` (DelegatedMode)
it is the ABI encoding of the triple (raw signature, validator address, hook
payload sequence) with parameter types bytes, address, bytes[] in exactly
that order. The signer's return value is `env.signTypedData` applied to the
typed data recorded in the trace's signer call. -/
theorem signature_modes_direct_delegated
    (client : ClientS) (signerAddr : Addr) (args : Args) (validator : Addr)
    (u : Bool) (m : List (Addr × Bytes)) (env : Env)
    (acct : Addr) (c : Chain) (dd : DomainInput → TypedData)
    (ser : SerInput → RSV → Bytes)
    (hA : resolveAccount client args = some acct)
    (hC : resolveChain client args = some c)
    (hV : VALID_CHAINS.contains c.id = true)
    (hD : c.getEip712Domain = some dd)
    (hS : c.serializeTx = some ser)
    (hM : env.liveChainId = c.id) :
    signCalls (signTransaction client signerAddr args validator u m env).2
      = [dd (mkDomainInput (normalizeTx args) env.liveChainId
          (if u then signerAddr else acct))]
    ∧ (serializerCalls (signTransaction client signerAddr args validator u m env).2).map
        (fun p => p.1.customSignature)
      = [if u then
           env.signTypedData (dd (mkDomainInput (normalizeTx args) env.liveChainId
             (if u then signerAddr else acct)))
         else
           encodeAbiTriple
             (env.signTypedData (dd (mkDomainInput (normalizeTx args) env.liveChainId
               (if u then signerAddr else acct))))
             validator (resolveHookData env.enabledHooks m)] := by
  cases u
  · rw [signTransaction_delegated_eq client signerAddr args validator m env
      acct c dd ser hA hC hV hD hS hM]
    simp [signCalls, serializerCalls, mkSerInput]
  · rw [signTransaction_direct_eq client signerAddr args validator m env
      acct c dd ser hA hC hV hD hS hM]
    simp [signCalls, serializerCalls, mkSerInput]

/-- Witness for C1: a concrete direct-mode run on `chain0`. -/
theorem signature_modes_direct_delegated_witness :
    signCalls (signTransaction client0 100 args0 55 true [] env0).2
      = [ddC (mkDomainInput (normalizeTx args0) env0.liveChainId
          (if true then 100 else 7))]
    ∧ (serializerCalls (signTransaction client0 100 args0 55 true [] env0).2).map
        (fun p => p.1.customSignature)
      = [if true then
           env0.signTypedData (ddC (mkDomainInput (normalizeTx args0) env0.liveChainId
             (if true then 100 else 7)))
         else
           encodeAbiTriple
             (env0.signTypedData (ddC (mkDomainInput (normalizeTx args0) env0.liveChainId
               (if true then 100 else 7))))
             55 (resolveHookData env0.enabledHooks [])] :=
  signature_modes_direct_delegated client0 100 args0 55 true [] env0 7 chain0
    ddC serC rfl rfl rfl rfl rfl rfl

/-- C7: every successful call hands the serializer the composed signature in
the customSignature field, together with the fixed zero placeholders
r = "0x0", s = "0x0", v = 0 for the standard ECDSA components. -/
theorem serializer_custom_field_and_placeholders
    (client : ClientS) (signerAddr : Addr) (args : Args) (validator : Addr)
    (u : Bool) (m : List (Addr × Bytes)) (env : Env)
    (acct : Addr) (c : Chain) (dd : DomainInput → TypedData)
    (ser : SerInput → RSV → Bytes)
    (hA : resolveAccount client args = some acct)
    (hC : resolveChain client args = some c)
    (hV : VALID_CHAINS.contains c.id = true)
    (hD : c.getEip712Domain = some dd)
    (hS : c.serializeTx = some ser)
    (hM : env.liveChainId = c.id) :
    let f := if u then signerAddr else acct
    let raw := env.signTypedData (dd (mkDomainInput (normalizeTx args) env.liveChainId f))
    let sig := if u then raw
      else encodeAbiTriple raw validator (resolveHookData env.enabledHooks m)
    serializerCalls (signTransaction client signerAddr args validator u m env).2
      = [(mkSerInput env.liveChainId (normalizeTx args) f sig, rsv0)]
    ∧ (mkSerInput env.liveChainId (normalizeTx args) f sig).customSignature = sig
    ∧ rsv0.r = "0x0" ∧ rsv0.s = "0x0" ∧ rsv0.v = 0 := by
  cases u
  · rw [signTransaction_delegated_eq client signerAddr args validator m env
      acct c dd ser hA hC hV hD hS hM]
    simp [serializerCalls, mkSerInput, rsv0]
  · rw [signTransaction_direct_eq client signerAddr args validator m env
      acct c dd ser hA hC hV hD hS hM]
    simp [serializerCalls, mkSerInput, rsv0]

/-- Witness for C7: a concrete delegated-mode run on `chain0`. -/
theorem serializer_custom_field_and_placeholders_witness :
    let f := if false then 100 else 7
    let raw := env0.signTypedData (ddC (mkDomainInput (normalizeTx args0) env0.liveChainId f))
    let sig := if false then raw
      else encodeAbiTriple raw 55 (resolveHookData env0.enabledHooks [(161, [18, 52])])
    serializerCalls (signTransaction client0 100 args0 55 false [(161, [18, 52])] env0).2
      = [(mkSerInput env0.liveChainId (normalizeTx args0) f sig, rsv0)]
    ∧ (mkSerInput env0.liveChainId (normalizeTx args0) f sig).customSignature = sig
    ∧ rsv0.r = "0x0" ∧ rsv0.s = "0x0" ∧ rsv0.v = 0 :=
  serializer_custom_field_and_placeholders client0 100 args0 55 false
    [(161, [18, 52])] env0 7 chain0 ddC serC rfl rfl rfl rfl rfl rfl

/-- C8: the from address embedded in the typed-data domain and in the
serialized transaction equals the signer client's account address when
`useSignerAddress = true`, and the smart account's address when
`useSignerAddress = false`. -/
theorem effective_from_address
    (client : ClientS) (signerAddr : Addr) (args : Args) (validator : Addr)
    (u : Bool) (m : List (Addr × Bytes)) (env : Env)
    (acct : Addr) (c : Chain) (dd : DomainInput → TypedData)
    (ser : SerInput → RSV → Bytes)
    (hA : resolveAccount client args = some acct)
    (hC : resolveChain client args = some c)
    (hV : VALID_CHAINS.contains c.id = true)
    (hD : c.getEip712Domain = some dd)
    (hS : c.serializeTx = some ser)
    (hM : env.liveChainId = c.id) :
    (domainCalls (signTransaction client signerAddr args validator u m env).2).map
        DomainInput.fromAddr
      = [if u then signerAddr else acct]
    ∧ (serializerCalls (signTransaction client signerAddr args validator u m env).2).map
        (fun p => p.1.fromAddr)
      = [if u then signerAddr else acct] := by
  cases u
  · rw [signTransaction_delegated_eq client signerAddr args validator m env
      acct c dd ser hA hC hV hD hS hM]
    simp [domainCalls, serializerCalls, mkDomainInput, mkSerInput]
  · rw [signTransaction_direct_eq client signerAddr args validator m env
      acct c dd ser hA hC hV hD hS hM]
    simp [domainCalls, serializerCalls, mkDomainInput, mkSerInput]

/-- Witness for C8: a concrete delegated-mode run, whose effective from
address is the smart account's address 7, not the signer's 100. -/
theorem effective_from_address_witness :
    (domainCalls (signTransaction client0 100 args0 55 false [] env0).2).map
        DomainInput.fromAddr
      = [if false then 100 else 7]
    ∧ (serializerCalls (signTransaction client0 100 args0 55 false [] env0).2).map
        (fun p => p.1.fromAddr)
      = [if false then 100 else 7] :=
  effective_from_address client0 100 args0 55 false [] env0 7 chain0
    ddC serC rfl rfl rfl rfl rfl rfl

/-- C2: on every delegated call the hook payload sequence fed to the
signature composer is index-for-index parallel to the hook address list
returned by the live `listHooks` read issued in that call: same length, same
order, each entry being the caller-supplied payload for that address when the
map has one and the empty byte string otherwise. -/
theorem hook_payload_sequence
    (client : ClientS) (signerAddr : Addr) (args : Args) (validator : Addr)
    (m : List (Addr × Bytes)) (env : Env)
    (acct : Addr) (c : Chain) (dd : DomainInput → TypedData)
    (ser : SerInput → RSV → Bytes)
    (hA : resolveAccount client args = some acct)
    (hC : resolveChain client args = some c)
    (hV : VALID_CHAINS.contains c.id = true)
    (hD : c.getEip712Domain = some dd)
    (hS : c.serializeTx = some ser)
    (hM : env.liveChainId = c.id) :
    listHooksReads (signTransaction client signerAddr args validator false m env).2
      = [(client.account, true)]
    ∧ (serializerCalls (signTransaction client signerAddr args validator false m env).2).map
        (fun p => p.1.customSignature)
      = [encodeAbiTriple
          (env.signTypedData (dd (mkDomainInput (normalizeTx args) env.liveChainId acct)))
          validator (resolveHookData env.enabledHooks m)]
    ∧ (resolveHookData env.enabledHooks m).length = env.enabledHooks.length
    ∧ ∀ i : Nat, (resolveHookData env.enabledHooks m)[i]?
        = (env.enabledHooks[i]?).map
            (fun h => ((m.find? (fun p => p.1 == h)).map Prod.snd).getD []) := by
  refine ⟨?_, ?_, ?_, ?_⟩
  · rw [signTransaction_delegated_eq client signerAddr args validator m env
      acct c dd ser hA hC hV hD hS hM]
    simp [listHooksReads]
  · rw [signTransaction_delegated_eq client signerAddr args validator m env
      acct c dd ser hA hC hV hD hS hM]
    simp [serializerCalls, mkSerInput]
  · simp [resolveHookData]
  · intro i
    simp only [resolveHookData, List.getElem?_map]
    rfl

/-- Witness for C2: a delegated run on `chain0` whose live hook list is
[161, 162] while the caller's map only covers 161. -/
theorem hook_payload_sequence_witness :
    listHooksReads (signTransaction client0 100 args0 55 false [(161, [18, 52])] env0).2
      = [(client0.account, true)]
    ∧ (serializerCalls (signTransaction client0 100 args0 55 false [(161, [18, 52])] env0).2).map
        (fun p => p.1.customSignature)
      = [encodeAbiTriple
          (env0.signTypedData (ddC (mkDomainInput (normalizeTx args0) env0.liveChainId 7)))
          55 (resolveHookData env0.enabledHooks [(161, [18, 52])])]
    ∧ (resolveHookData env0.enabledHooks [(161, [18, 52])]).length
        = env0.enabledHooks.length
    ∧ ∀ i : Nat, (resolveHookData env0.enabledHooks [(161, [18, 52])])[i]?
        = (env0.enabledHooks[i]?).map
            (fun h => (([(161, [18, 52])].find? (fun p => p.1 == h)).map Prod.snd).getD []) :=
  hook_payload_sequence client0 100 args0 55 [(161, [18, 52])] env0 7 chain0
    ddC serC rfl rfl rfl rfl rfl rfl

/-- C3 counterexample: the claim says the chain id passed to the transaction
serializer always equals the live chain id, but the serializer input is
built as `{ chainId, ...transaction, … }`, so a request that carries its own
`chainId` property overrides the live value: with live chain id 2741 and a
request carrying chainId 3, the serializer receives 3, while the typed-data
domain of the same call still receives the live 2741. -/
theorem serializer_chainId_override_cex :
    env0.liveChainId = 2741
    ∧ argsOwnChainId.tx.chainId = some (JNum.big 3)
    ∧ (domainCalls (signTransaction client0 100 argsOwnChainId 55 true [] env0).2).map
        DomainInput.chainId
      = [2741]
    ∧ (serializerCalls (signTransaction client0 100 argsOwnChainId 55 true [] env0).2).map
        (fun p => p.1.chainId)
      = [JNum.big 3]
    ∧ JNum.big 3 ≠ JNum.big 2741 := by decide

/-- C3 (amended): the chain id embedded in the typed-data domain always
equals the chain id fetched by the live getChainId read of that call,
whether or not the request carries a `chainId` property; the chain id passed
to the transaction serializer equals the live value whenever the request does
not carry a `chainId` property of its own (a caller-supplied `chainId`
overrides the live value in the serializer input only). -/
theorem chainId_live_everywhere
    (client : ClientS) (signerAddr : Addr) (args : Args) (validator : Addr)
    (u : Bool) (m : List (Addr × Bytes)) (env : Env)
    (acct : Addr) (c : Chain) (dd : DomainInput → TypedData)
    (ser : SerInput → RSV → Bytes)
    (hA : resolveAccount client args = some acct)
    (hC : resolveChain client args = some c)
    (hV : VALID_CHAINS.contains c.id = true)
    (hD : c.getEip712Domain = some dd)
    (hS : c.serializeTx = some ser)
    (hM : env.liveChainId = c.id) :
    (domainCalls (signTransaction client signerAddr args validator u m env).2).map
        DomainInput.chainId
      = [env.liveChainId]
    ∧ (args.tx.chainId = none →
        (serializerCalls (signTransaction client signerAddr args validator u m env).2).map
          (fun p => p.1.chainId)
        = [JNum.big env.liveChainId]) := by
  constructor
  · cases u
    · rw [signTransaction_delegated_eq client signerAddr args validator m env
        acct c dd ser hA hC hV hD hS hM]
      simp [domainCalls, mkDomainInput]
    · rw [signTransaction_direct_eq client signerAddr args validator m env
        acct c dd ser hA hC hV hD hS hM]
      simp [domainCalls, mkDomainInput]
  · intro hN
    have hN2 : (normalizeTx args).chainId = none := by
      simp [normalizeTx, transformHexValues, hN, transformJNum]
    cases u
    · rw [signTransaction_delegated_eq client signerAddr args validator m env
        acct c dd ser hA hC hV hD hS hM]
      simp [serializerCalls, mkSerInput, hN2]
    · rw [signTransaction_direct_eq client signerAddr args validator m env
        acct c dd ser hA hC hV hD hS hM]
      simp [serializerCalls, mkSerInput, hN2]

/-- Witness for C3 (amended): the domain clause at a request carrying its
own chainId, and both clauses at a request without one. -/
theorem chainId_live_everywhere_witness :
    (domainCalls (signTransaction client0 100 argsOwnChainId 55 true [] env0).2).map
        DomainInput.chainId
      = [env0.liveChainId]
    ∧ (domainCalls (signTransaction client0 100 args0 55 false [] env0).2).map
        DomainInput.chainId
      = [env0.liveChainId]
    ∧ (serializerCalls (signTransaction client0 100 args0 55 false [] env0).2).map
        (fun p => p.1.chainId)
      = [JNum.big env0.liveChainId] :=
  ⟨(chainId_live_everywhere client0 100 argsOwnChainId 55 true [] env0 7 chain0
      ddC serC rfl rfl rfl rfl rfl rfl).1,
   (chainId_live_everywhere client0 100 args0 55 false [] env0 7 chain0
      ddC serC rfl rfl rfl rfl rfl rfl).1,
   (chainId_live_everywhere client0 100 args0 55 false [] env0 7 chain0
      ddC serC rfl rfl rfl rfl rfl rfl).2 rfl⟩

/-- C4: when the live chain id fetched by getChainId differs from the
declared chain's id, the call stops with the chain-mismatch error right after
the chain-id read, and the signer is never invoked in that call. -/
theorem chain_mismatch_short_circuits
    (client : ClientS) (signerAddr : Addr) (args : Args) (validator : Addr)
    (u : Bool) (m : List (Addr × Bytes)) (env : Env)
    (acct : Addr) (c : Chain) (dd : DomainInput → TypedData)
    (ser : SerInput → RSV → Bytes)
    (hA : resolveAccount client args = some acct)
    (hC : resolveChain client args = some c)
    (hV : VALID_CHAINS.contains c.id = true)
    (hD : c.getEip712Domain = some dd)
    (hS : c.serializeTx = some ser)
    (hMne : env.liveChainId ≠ c.id) :
    signTransaction client signerAddr args validator u m env
      = (Except.error SignError.chainMismatch, [Event.getChainIdCall])
    ∧ signCalls (signTransaction client signerAddr args validator u m env).2 = [] := by
  have h1 : signTransaction client signerAddr args validator u m env
      = (Except.error SignError.chainMismatch, [Event.getChainIdCall]) := by
    simp only [signTransaction, hA, hC, hD, hS, hV, assertOk_normalizeTx,
      Bool.true_eq_false, if_false, if_true, ne_eq]
    simp [hMne]
  exact ⟨h1, by rw [h1]; simp [signCalls]⟩

/-- Witness for C4: live chain id 11124 against declared chain 2741. -/
theorem chain_mismatch_short_circuits_witness :
    signTransaction client0 100 args0 55 false [] envT
      = (Except.error SignError.chainMismatch, [Event.getChainIdCall])
    ∧ signCalls (signTransaction client0 100 args0 55 false [] envT).2 = [] :=
  chain_mismatch_short_circuits client0 100 args0 55 false [] envT 7 chain0
    ddC serC rfl rfl rfl rfl rfl (by decide)

/-- C5: when no chain is declared (neither in the arguments nor on the
client) or the declared chain's id is not in the supported-chain allow-list,
the call fails with the invalid-chain error with an empty trace, i.e. before
any network read or signing call. -/
theorem invalid_chain_fails_before_reads
    (client : ClientS) (signerAddr : Addr) (args : Args) (validator : Addr)
    (u : Bool) (m : List (Addr × Bytes)) (env : Env) (acct : Addr)
    (hA : resolveAccount client args = some acct)
    (hBad : ∀ c, resolveChain client args = some c →
      VALID_CHAINS.contains c.id = false) :
    signTransaction client signerAddr args validator u m env
      = (Except.error SignError.invalidChain, []) := by
  cases hRC : resolveChain client args with
  | none =>
    simp only [signTransaction, hA, hRC, assertOk_normalizeTx,
      Bool.true_eq_false, if_false]
  | some c =>
    simp only [signTransaction, hA, hRC, hBad c hRC, assertOk_normalizeTx,
      Bool.true_eq_false, if_false, if_true]

/-- Witness for C5: a declared chain with id 999, outside the allow-list. -/
theorem invalid_chain_fails_before_reads_witness :
    signTransaction
      { account := some 7, chain := some { chain0 with id := 999 } }
      100 args0 55 false [] env0
      = (Except.error SignError.invalidChain, []) :=
  invalid_chain_fails_before_reads
    { account := some 7, chain := some { chain0 with id := 999 } }
    100 args0 55 false [] env0 7 rfl
    (fun c hc => by
      cases Option.some.inj hc
      rfl)

/-- C6 counterexample: a chain lacking both capabilities lacks the
transaction serializer, yet the call fails with the missing-capability
(domain) error, not the missing-serializer error, because the domain-function
check runs first. -/
theorem missing_serializer_error_cex :
    chainNoCaps.serializeTx = none
    ∧ signTransaction clientNoCaps 100 args0 55 false [] env0
        = (Except.error SignError.missingGetEip712Domain, [])
    ∧ SignError.missingGetEip712Domain ≠ SignError.missingSerializer :=
  ⟨rfl, rfl, by decide⟩

/-- C6 (amended): when the declared chain lacks the domain-derivation
function, the call fails with the missing-capability error; when it has the
domain function but lacks the transaction serializer, it fails with the
missing-serializer error; in both cases the trace is empty, so no signature
is produced. -/
theorem missing_capability_errors
    (client : ClientS) (signerAddr : Addr) (args : Args) (validator : Addr)
    (u : Bool) (m : List (Addr × Bytes)) (env : Env)
    (acct : Addr) (c : Chain)
    (hA : resolveAccount client args = some acct)
    (hC : resolveChain client args = some c)
    (hV : VALID_CHAINS.contains c.id = true) :
    (c.getEip712Domain = none →
      signTransaction client signerAddr args validator u m env
        = (Except.error SignError.missingGetEip712Domain, []))
    ∧ (∀ dd, c.getEip712Domain = some dd → c.serializeTx = none →
      signTransaction client signerAddr args validator u m env
        = (Except.error SignError.missingSerializer, [])) := by
  constructor
  · intro hD
    simp only [signTransaction, hA, hC, hV, hD, assertOk_normalizeTx,
      Bool.true_eq_false, if_false, if_true]
  · intro dd hD hS
    simp only [signTransaction, hA, hC, hV, hD, hS, assertOk_normalizeTx,
      Bool.true_eq_false, if_false, if_true]

/-- Witness for C6 (amended): both failure shapes at concrete inputs. -/
theorem missing_capability_errors_witness :
    signTransaction clientNoCaps 100 args0 55 false [] env0
      = (Except.error SignError.missingGetEip712Domain, [])
    ∧ signTransaction clientNoSer 100 args0 55 false [] env0
      = (Except.error SignError.missingSerializer, []) :=
  ⟨(missing_capability_errors clientNoCaps 100 args0 55 false [] env0 7
      chainNoCaps rfl rfl rfl).1 rfl,
   (missing_capability_errors clientNoSer 100 args0 55 false [] env0 7
      chainNoSer rfl rfl rfl).2 ddC rfl rfl⟩

/-- C9 counterexample: `type` is a caller-supplied request field outside the
claim's list of normalized numeric fields, yet a request carrying type
eip1559 reaches the serializer with type eip712: the pipeline overwrites the
type discriminator at entry. -/
theorem type_field_overwritten_cex :
    argsOwnType.tx.typ = some "eip1559"
    ∧ (serializerCalls (signTransaction client0 100 argsOwnType 55 true [] env0).2).map
        (fun p => p.1.typ)
      = ["eip712"]
    ∧ "eip712" ≠ "eip1559" :=
  ⟨rfl, rfl, by decide⟩

/-- C9 (amended): the numeric fields (value, nonce, gas, maxFeePerGas,
maxPriorityFeePerGas, chainId, gasPerPubdata) are normalized exactly once at
entry and reach the serializer in that normalized form; every other
caller-supplied request field reaches the serializer unchanged, except the
type discriminator, which is overwritten to the fixed eip712 tag at entry,
and the customSignature field, which is replaced by the composed signature. -/
theorem request_fields_frame
    (client : ClientS) (signerAddr : Addr) (args : Args) (validator : Addr)
    (u : Bool) (m : List (Addr × Bytes)) (env : Env)
    (acct : Addr) (c : Chain) (dd : DomainInput → TypedData)
    (ser : SerInput → RSV → Bytes)
    (hA : resolveAccount client args = some acct)
    (hC : resolveChain client args = some c)
    (hV : VALID_CHAINS.contains c.id = true)
    (hD : c.getEip712Domain = some dd)
    (hS : c.serializeTx = some ser)
    (hM : env.liveChainId = c.id) :
    let f := if u then signerAddr else acct
    let raw := env.signTypedData (dd (mkDomainInput (normalizeTx args) env.liveChainId f))
    let sig := if u then raw
      else encodeAbiTriple raw validator (resolveHookData env.enabledHooks m)
    let s := mkSerInput env.liveChainId (normalizeTx args) f sig
    serializerCalls (signTransaction client signerAddr args validator u m env).2
      = [(s, rsv0)]
    ∧ s.toAddr = args.tx.toAddr
    ∧ s.data = args.tx.data
    ∧ s.value = transformJNum args.tx.value
    ∧ s.nonce = transformJNum args.tx.nonce
    ∧ s.gas = transformJNum args.tx.gas
    ∧ s.maxFeePerGas = transformJNum args.tx.maxFeePerGas
    ∧ s.maxPriorityFeePerGas = transformJNum args.tx.maxPriorityFeePerGas
    ∧ s.gasPerPubdata = transformJNum args.tx.gasPerPubdata
    ∧ s.chainId = (transformJNum args.tx.chainId).getD (JNum.big env.liveChainId)
    ∧ s.typ = "eip712"
    ∧ s.customSignature = sig := by
  cases u
  · rw [signTransaction_delegated_eq client signerAddr args validator m env
      acct c dd ser hA hC hV hD hS hM]
    exact ⟨by simp [serializerCalls], rfl, rfl, rfl, rfl, rfl, rfl, rfl, rfl,
      rfl, rfl, rfl⟩
  · rw [signTransaction_direct_eq client signerAddr args validator m env
      acct c dd ser hA hC hV hD hS hM]
    exact ⟨by simp [serializerCalls], rfl, rfl, rfl, rfl, rfl, rfl, rfl, rfl,
      rfl, rfl, rfl⟩

/-- Witness for C9 (amended): a concrete direct-mode run. -/
theorem request_fields_frame_witness :
    let f := if true then 100 else 7
    let raw := env0.signTypedData (ddC (mkDomainInput (normalizeTx args0) env0.liveChainId f))
    let sig := if true then raw
      else encodeAbiTriple raw 55 (resolveHookData env0.enabledHooks [])
    let s := mkSerInput env0.liveChainId (normalizeTx args0) f sig
    serializerCalls (signTransaction client0 100 args0 55 true [] env0).2
      = [(s, rsv0)]
    ∧ s.toAddr = args0.tx.toAddr
    ∧ s.data = args0.tx.data
    ∧ s.value = transformJNum args0.tx.value
    ∧ s.nonce = transformJNum args0.tx.nonce
    ∧ s.gas = transformJNum args0.tx.gas
    ∧ s.maxFeePerGas = transformJNum args0.tx.maxFeePerGas
    ∧ s.maxPriorityFeePerGas = transformJNum args0.tx.maxPriorityFeePerGas
    ∧ s.gasPerPubdata = transformJNum args0.tx.gasPerPubdata
    ∧ s.chainId = (transformJNum args0.tx.chainId).getD (JNum.big env0.liveChainId)
    ∧ s.typ = "eip712"
    ∧ s.customSignature = sig :=
  request_fields_frame client0 100 args0 55 true [] env0 7 chain0
    ddC serC rfl rfl rfl rfl rfl rfl

/-- C10: in DelegatedMode the restricted test-network-only variant issues no
hook-registry read and always composes with the empty hook payload sequence;
on its single allowed chain, with identical inputs and identical normalized
transactions, its output equals the configurable variant's output whenever
the configurable variant's live hook list is empty. -/
theorem restricted_variant_no_hooks_and_equiv
    (client : ClientS) (signerAddr : Addr) (args : Args) (validator : Addr)
    (m : List (Addr × Bytes)) (env : Env)
    (acct : Addr) (c : Chain) (dd : DomainInput → TypedData)
    (ser : SerInput → RSV → Bytes)
    (hA : resolveAccount client args = some acct)
    (hC : resolveChain client args = some c)
    (hid : c.id = 11124)
    (hD : c.getEip712Domain = some dd)
    (hS : c.serializeTx = some ser)
    (hM : env.liveChainId = c.id)
    (hHooks : env.enabledHooks = [])
    (hNorm : normalizeTx args = normalizeTxRestricted args) :
    listHooksReads
        (signTransactionRestricted client signerAddr args validator false env).2
      = []
    ∧ (serializerCalls
        (signTransactionRestricted client signerAddr args validator false env).2).map
        (fun p => p.1.customSignature)
      = [encodeAbiTriple
          (env.signTypedData
            (dd (mkDomainInput (normalizeTxRestricted args) env.liveChainId acct)))
          validator []]
    ∧ (signTransaction client signerAddr args validator false m env).1
      = (signTransactionRestricted client signerAddr args validator false env).1 := by
  have hVr : ALLOWED_CHAINS.contains c.id = true := by rw [hid]; rfl
  have hV : VALID_CHAINS.contains c.id = true := by rw [hid]; rfl
  refine ⟨?_, ?_, ?_⟩
  · rw [signTransactionRestricted_delegated_eq client signerAddr args validator
      env acct c dd ser hA hC hVr hD hS hM]
    simp [listHooksReads]
  · rw [signTransactionRestricted_delegated_eq client signerAddr args validator
      env acct c dd ser hA hC hVr hD hS hM]
    simp [serializerCalls, mkSerInput]
  · rw [signTransaction_delegated_eq client signerAddr args validator m env
        acct c dd ser hA hC hV hD hS hM,
      signTransactionRestricted_delegated_eq client signerAddr args validator
        env acct c dd ser hA hC hVr hD hS hM]
    simp [hNorm, hHooks, resolveHookData]

/-- Witness for C10: a concrete delegated run on the test network with an
empty live hook list, where the two pipelines produce the same output. -/
theorem restricted_variant_no_hooks_and_equiv_witness :
    listHooksReads (signTransactionRestricted clientT 100 args0 55 false envT).2
      = []
    ∧ (serializerCalls
        (signTransactionRestricted clientT 100 args0 55 false envT).2).map
        (fun p => p.1.customSignature)
      = [encodeAbiTriple
          (envT.signTypedData
            (ddC (mkDomainInput (normalizeTxRestricted args0) envT.liveChainId 7)))
          55 []]
    ∧ (signTransaction clientT 100 args0 55 false [(161, [18, 52])] envT).1
      = (signTransactionRestricted clientT 100 args0 55 false envT).1 :=
  restricted_variant_no_hooks_and_equiv clientT 100 args0 55 [(161, [18, 52])]
    envT 7 chainT ddC serC rfl rfl rfl rfl rfl rfl rfl rfl

end AGW
